import Mathlib

/-!
# apiAgent/client.go: a shallow embedding

The reverse-tunnel agent of `internal/apiAgent/client.go` is embedded as pure
functions.  Go strings are Lean strings (sequences of code points), the mapping
table `map[string]string` is an association list with its lookup, and everything
the program obtains from the outside world (the result of a read, of a dial, of
`url.Parse`, the order in which `range` walks a map) is an explicit input.
-/

set_option autoImplicit false

namespace ApiAgent

/-! ## Data: URLs, requests, responses, the mapping table -/

/-- The fields of `url.URL` that the program reads or writes. -/
structure URL where
  Scheme : String
  Host : String
  Path : String
  RawQuery : String
  deriving DecidableEq, Repr

/-- An `http.Header`: canonical key, values. -/
abbrev Header := List (String × List String)

/-- The fields of `http.Request` that the program reads or writes; `Body` stands
for the body the request carries. -/
structure Request where
  Method : String
  URL : URL
  Header : Header
  Body : String
  Host : String
  RequestURI : String
  deriving DecidableEq, Repr

/-- The `http.Response` built by `createErrorResponse`. -/
structure Response where
  StatusCode : Nat
  ProtoMajor : Nat
  ProtoMinor : Nat
  Header : Header
  Body : String
  deriving DecidableEq, Repr

/-- A `map[string]string`: the entries, at most one per key. -/
abbrev Mappings := List (String × String)

/-- The table `mappings` of the source: the local services to be exposed. -/
def mappings : Mappings := [("alist", "http://127.0.0.1:5244")]

/-! ## The pieces of Go's standard library that the program calls -/

/-- What the embedding takes as given: library tables and the network. -/
structure Lib where
  /-- `unicode.ToLower` on the runes above U+007F. -/
  unicodeToLower : Char → Char
  /-- `url.Parse`: `none` is a parse error. -/
  urlParse : String → Option URL
  /-- Whether `net.Dial("tcp", host)` succeeds. -/
  dialOk : String → Bool

namespace strings

/-- `strings.Trim(s, cutset)`: `s` without the leading and trailing code points
that occur in `cutset`. -/
def Trim (s cutset : String) : String :=
  ⟨((s.data.dropWhile (fun c => cutset.data.contains c)).rdropWhile
      (fun c => cutset.data.contains c))⟩

/-- The segments of a list of characters between the occurrences of `sep`. -/
def splitChars (sep : Char) : List Char → List (List Char)
  | [] => [[]]
  | c :: cs =>
    if c = sep then [] :: splitChars sep cs
    else
      match splitChars sep cs with
      | [] => [[c]]
      | seg :: segs => (c :: seg) :: segs

/-- `strings.Split(s, sep)` for a separator of one code point, the only kind
the program uses (`"/"`). -/
def Split (s : String) (sep : Char) : List String :=
  (splitChars sep s.data).map String.mk

/-- The concatenation of `elems` with `sep` between neighbours. -/
def joinChars (sep : List Char) : List (List Char) → List Char
  | [] => []
  | [x] => x
  | x :: y :: rest => x ++ sep ++ joinChars sep (y :: rest)

/-- `strings.Join(elems, sep)`. -/
def Join (elems : List String) (sep : String) : String :=
  ⟨joinChars sep.data (elems.map String.data)⟩

/-- `strings.HasPrefix(s, pre)`. -/
def HasPrefix (s pre : String) : Bool :=
  pre.data.isPrefixOf s.data

/-- `strings.Contains(s, substr)`. -/
def Contains (s substr : String) : Bool :=
  decide (substr.data <:+: s.data)

/-- `unicode.ToLower` on one rune: the ASCII range is computed, the rest is the
library's table. -/
def toLowerRune (lib : Lib) (c : Char) : Char :=
  if c.toNat ≤ 127 then
    (if 65 ≤ c.toNat ∧ c.toNat ≤ 90 then Char.ofNat (c.toNat + 32) else c)
  else lib.unicodeToLower c

/-- `strings.ToLower(s)`. -/
def ToLower (lib : Lib) (s : String) : String :=
  ⟨s.data.map (toLowerRune lib)⟩

/-- `unicode.IsSpace`. -/
def isSpace (c : Char) : Bool :=
  let n := c.toNat
  (9 ≤ n && n ≤ 13) || n == 32 || n == 0x85 || n == 0xA0 || n == 0x1680 ||
  (0x2000 ≤ n && n ≤ 0x200a) || n == 0x2028 || n == 0x2029 || n == 0x202f ||
  n == 0x205f || n == 0x3000

/-- `strings.TrimSpace(s)`. -/
def TrimSpace (s : String) : String :=
  ⟨(s.data.dropWhile isSpace).rdropWhile isSpace⟩

end strings

namespace http

def StatusNotFound : Nat := 404
def StatusInternalServerError : Nat := 500
def StatusBadGateway : Nat := 502

/-- The bytes of an HTTP token (`validHeaderFieldByte`). -/
def validHeaderFieldByte (c : Char) : Bool :=
  c.isAlphanum || "!#$%&'*+-.^_|~\x60".data.contains c

/-- The second loop of `canonicalMIMEHeaderKey`: a letter is upper case at the
start and after `-`, lower case elsewhere. -/
def canonicalChars : Bool → List Char → List Char
  | _, [] => []
  | upper, c :: cs =>
    let c1 :=
      if upper && c.isLower then Char.ofNat (c.toNat - 32)
      else if !upper && c.isUpper then Char.ofNat (c.toNat + 32)
      else c
    c1 :: canonicalChars (c1 == '-') cs

/-- `textproto.CanonicalMIMEHeaderKey`: a key that is not a token is returned
unchanged. -/
def CanonicalMIMEHeaderKey (s : String) : String :=
  if s.data.all validHeaderFieldByte then ⟨canonicalChars true s.data⟩ else s

/-- `Header.Get(key)`: the first value stored under the canonical form of the
key, `""` when there is none. -/
def Header.Get (h : Header) (key : String) : String :=
  match h.lookup (CanonicalMIMEHeaderKey key) with
  | some (v :: _) => v
  | _ => ""

/-- `Header.Set(key, value)`: the canonical form of the key now holds the single
value. -/
def Header.Set (h : Header) (key value : String) : Header :=
  (CanonicalMIMEHeaderKey key, [value]) ::
    h.filter (fun e => e.1 != CanonicalMIMEHeaderKey key)

end http

/-! ## createErrorResponse -/

/-- `createErrorResponse`: an HTTP/1.1 response with a plain-text body. -/
def createErrorResponse (statusCode : Nat) (message : String) : Response :=
  { StatusCode := statusCode, ProtoMajor := 1, ProtoMinor := 1,
    Header := [("Content-Type", ["text/plain"])], Body := message }

/-! ## handleWebSocketProxy -/

/-- Lines 342-346: a target configured as http/https becomes ws/wss; ws/wss and
anything else is kept. -/
def toWsScheme (scheme : String) : String :=
  if scheme = "http" then "ws"
  else if scheme = "https" then "wss"
  else scheme

/-- Lines 367-371: the scheme of the URL the handshake connects to. -/
def toHttpScheme (scheme : String) : String :=
  if scheme = "ws" then "http"
  else if scheme = "wss" then "https"
  else scheme

/-- Lines 339-363: `wsURL`, the local WebSocket URL. -/
def wsURL (req : Request) (targetURL : URL) (parts : List String) : URL :=
  let wsURL : URL := { targetURL with Scheme := toWsScheme targetURL.Scheme }
  if parts.length > 1 then
    let additionalPath := "/" ++ strings.Join (parts.drop 1) "/"
    let wsURL : URL :=
      if wsURL.Path = "" ∨ wsURL.Path = "/" then { wsURL with Path := additionalPath }
      else { wsURL with Path := wsURL.Path ++ additionalPath }
    if req.URL.RawQuery ≠ "" then { wsURL with RawQuery := req.URL.RawQuery }
    else wsURL
  else wsURL

/-- Lines 366-371: `httpURL`, the URL used to connect. -/
def httpURL (req : Request) (targetURL : URL) (parts : List String) : URL :=
  let wsURL := wsURL req targetURL parts
  { wsURL with Scheme := toHttpScheme wsURL.Scheme }

/-- Lines 399-406: the placeholder `Sec-WebSocket-Key`, the bytes 65 to 80. -/
def placeholderKey : String :=
  ⟨(List.range 16).map (fun i => Char.ofNat (65 + i))⟩

/-- Lines 392-409: the headers an upgrade request needs, filled in when they are
missing. -/
def completeHeaders (lib : Lib) (h : Header) : Header :=
  let h := if strings.ToLower lib (http.Header.Get h "Upgrade") ≠ "websocket"
    then http.Header.Set h "Upgrade" "websocket" else h
  let h := if !strings.Contains (strings.ToLower lib (http.Header.Get h "Connection")) "upgrade"
    then http.Header.Set h "Connection" "Upgrade" else h
  let h := if http.Header.Get h "Sec-WebSocket-Key" = ""
    then http.Header.Set h "Sec-WebSocket-Key" placeholderKey else h
  if http.Header.Get h "Sec-WebSocket-Version" = ""
    then http.Header.Set h "Sec-WebSocket-Version" "13" else h

/-- Lines 385-409: the upgrade request written to the local service. -/
def upgradeRequest (lib : Lib) (req : Request) (targetURL : URL) (parts : List String) :
    Request :=
  let wsURL := wsURL req targetURL parts
  let httpURL := httpURL req targetURL parts
  { req with
    URL := { req.URL with
      Scheme := httpURL.Scheme, Host := httpURL.Host,
      Path := wsURL.Path, RawQuery := wsURL.RawQuery },
    RequestURI := "",
    Header := completeHeaders lib req.Header }

/-- What `handleWebSocketProxy` does until the upgrade request is on the wire;
the relay of the answer and of the bytes after it is input and output only. -/
inductive WsOutcome where
  /-- The dial failed: this response is written to the client stream. -/
  | unavailable (resp : Response)
  /-- The connection to `host` is open and `req` is written to it. -/
  | upgrade (host : String) (req : Request)
  deriving DecidableEq, Repr

/-- `handleWebSocketProxy`. -/
def handleWebSocketProxy (lib : Lib) (req : Request) (targetURL : URL)
    (parts : List String) : WsOutcome :=
  let httpURL := httpURL req targetURL parts
  if lib.dialOk httpURL.Host then
    .upgrade httpURL.Host (upgradeRequest lib req targetURL parts)
  else
    .unavailable (createErrorResponse http.StatusBadGateway "WebSocket server unavailable")

/-! ## handleProxyStream -/

/-- The result of lines 270-288. -/
inductive Resolution where
  /-- Line 271: `len(parts) < 1`, a return with nothing written. -/
  | invalidPath
  /-- Line 283: no mapping, this response is written. -/
  | notFound (resp : Response)
  /-- The request goes on with this target and these segments. -/
  | target (localTarget : String) (parts : List String)
  deriving DecidableEq, Repr

/-- Lines 270-288 of `handleProxyStream`: from the path to the local target. -/
def resolveMapping (mappings : Mappings) (path : String) : Resolution :=
  let parts := strings.Split (strings.Trim path "/") '/'
  match parts with
  | [] => .invalidPath
  | mappingName :: _ =>
    let found := mappings.lookup mappingName
    let found := if found.isNone && mappingName == "ws" then mappings.lookup "video" else found
    match found with
    | none => .notFound (createErrorResponse http.StatusNotFound "Mapping Not Found")
    | some localTarget => .target localTarget parts

/-- Lines 291-294 of `handleProxyStream`: `isWebSocket`. -/
def isWebSocket (lib : Lib) (req : Request) : Bool :=
  (strings.ToLower lib (http.Header.Get req.Header "Upgrade") == "websocket" &&
    strings.ToLower lib (http.Header.Get req.Header "Connection") == "upgrade") ||
  strings.HasPrefix req.URL.Path "/api/ws" ||
  strings.HasPrefix req.URL.Path "/ws"

/-- Lines 312-317: the request handed to `http.DefaultClient.Do`. -/
def forwardRequest (req : Request) (targetURL : URL) (parts : List String) : Request :=
  { req with
    URL := { req.URL with
      Scheme := targetURL.Scheme, Host := targetURL.Host,
      Path := "/" ++ strings.Join (parts.drop 1) "/" },
    RequestURI := "" }

/-- What `handleProxyStream` does with one stream. -/
inductive ProxyOutcome where
  /-- `http.ReadRequest` failed: the stream is closed, nothing is written. -/
  | abandoned
  /-- Line 271: the stream is closed, nothing is written. -/
  | invalidPath
  /-- An error response is written and nothing is forwarded. -/
  | respond (resp : Response)
  /-- The request went to `handleWebSocketProxy`. -/
  | webSocket (w : WsOutcome)
  /-- The request is issued with `http.DefaultClient.Do`. -/
  | forward (req : Request)
  deriving DecidableEq, Repr

/-- `handleProxyStream`; `decoded` is what `http.ReadRequest` returned. -/
def handleProxyStream (lib : Lib) (mappings : Mappings) (decoded : Option Request) :
    ProxyOutcome :=
  match decoded with
  | none => .abandoned
  | some req =>
    match resolveMapping mappings req.URL.Path with
    | .invalidPath => .invalidPath
    | .notFound resp => .respond resp
    | .target localTarget parts =>
      let isWebSocket := isWebSocket lib req
      match lib.urlParse localTarget with
      | none =>
        .respond (createErrorResponse http.StatusInternalServerError
          "Invalid Target Configuration")
      | some targetURL =>
        if isWebSocket then .webSocket (handleWebSocketProxy lib req targetURL parts)
        else .forward (forwardRequest req targetURL parts)

/-! ## runClient -/

namespace time

/-- `time.Second`, in nanoseconds. -/
def Second : Nat := 1000000000

end time

/-- What `bufio.Reader.ReadString` returned: the data read up to the delimiter or
the error, and the error (`none` is nil: the data ends in the delimiter). -/
structure ReadResult where
  resp : String
  err : Option String
  deriving DecidableEq, Repr

/-- What one call of `runClient` gets from the network. -/
structure Attempt where
  /-- The error of `tls.Dial` or `net.Dial`. -/
  dialErr : Option String
  /-- The first `ReadString`. -/
  greeting : ReadResult
  /-- The `ReadString` after the key is written. -/
  keyResponse : ReadResult
  /-- The error of `yamux.Client`. -/
  sessionErr : Option String
  /-- The error of the `session.OpenStream` for the registration. -/
  regOpenErr : Option String
  /-- The error of the write of the registration message. -/
  regWriteErr : Option String
  /-- The order in which `range` walks the mapping table. -/
  rangeOrder : List (String × String)
  /-- How many streams `session.AcceptStream` hands out before it fails. -/
  accepted : Nat
  deriving DecidableEq, Repr

/-- What `runClient` does, in program order. -/
inductive Event where
  /-- `tls.Dial` with `InsecureSkipVerify: insecure`, or `net.Dial`. -/
  | dial (tls insecure : Bool) (addr : String)
  | setReadDeadline (ns : Nat)
  | readString
  | clearReadDeadline
  /-- A `log.Printf`, named by its format string. -/
  | log (format : String)
  | connClose
  | connWrite (data : String)
  | yamuxClient
  | goHeartbeat
  | openStream
  | streamWrite (data : String)
  | streamClose
  | goHandleProxyStream
  | sessionClose
  deriving DecidableEq, Repr

/-- What a stretch of `runClient` did and the error it returned with, if it
returned. -/
structure Step where
  events : List Event
  ret : Option String
  deriving DecidableEq, Repr

/-- What `runClient` did and the error it returned (`none` is nil). -/
structure Run where
  events : List Event
  err : Option String
  deriving DecidableEq, Repr

/-- Lines 94-126 of `runClient`: the first line of the server. -/
def greeting (enableTLS : Bool) (r : ReadResult) : Step :=
  let read := [Event.setReadDeadline (2 * time.Second), .readString, .clearReadDeadline]
  if enableTLS then
    if strings.HasPrefix r.resp "ERROR:" then
      ⟨read ++ [.log "Server rejected connection: %s", .connClose],
        some ("server rejected connection: " ++ strings.TrimSpace r.resp)⟩
    else if strings.HasPrefix r.resp "SUCCESS:" then
      ⟨read ++ [.log "Server accepted connection: %s"], none⟩
    else ⟨read, none⟩
  else
    match r.err with
    | some _ =>
      ⟨read ++ [.log "Failed to read server response: %v", .connClose],
        some "server closed connection or sent no response (maybe TLS required?)"⟩
    | none =>
      if strings.HasPrefix r.resp "ERROR:" then
        ⟨read ++ [.log "Server rejected connection: %s", .connClose],
          some ("server rejected connection: " ++ strings.TrimSpace r.resp)⟩
      else if strings.HasPrefix r.resp "SUCCESS:" then
        ⟨read ++ [.log "Server accepted connection: %s"], none⟩
      else ⟨read, none⟩

/-- Lines 128-147 of `runClient`: the key and the answer to it. -/
def keyExchange (serverKey : String) (r : ReadResult) : Step :=
  let sent := [Event.log "%s Connected to server.", .connWrite (serverKey ++ "\n"),
    .setReadDeadline (2 * time.Second), .readString, .clearReadDeadline]
  match r.err with
  | some _ =>
    ⟨sent ++ [.log "Failed to read server response after sending key: %v", .connClose],
      some "server closed connection or sent no response after key"⟩
  | none =>
    if strings.HasPrefix r.resp "ERROR:" then
      ⟨sent ++ [.log "Server rejected connection after serverKey: %s", .connClose],
        some ("server rejected connection after serverKey: " ++ strings.TrimSpace r.resp)⟩
    else if strings.HasPrefix r.resp "SUCCESS:" then
      ⟨sent ++ [.log "Server Validated serverKey: %s"], none⟩
    else ⟨sent, none⟩

/-- Lines 211-215 of `runClient`: `regMsg`, built in the order `range` yields. -/
def regMsg (clientId : String) (rangeOrder : List (String × String)) : String :=
  rangeOrder.foldl (fun msg e => msg ++ (" " ++ e.1 ++ "=" ++ e.2)) ("register " ++ clientId)

/-- Lines 149-237 of `runClient`: the session, the registration, the accept
loop. -/
def session (clientId : String) (w : Attempt) : Step :=
  match w.sessionErr with
  | some e => ⟨[.yamuxClient], some ("failed to create yamux session: " ++ e)⟩
  | none =>
    let opened := [Event.yamuxClient, .goHeartbeat, .openStream]
    match w.regOpenErr with
    | some e =>
      ⟨opened ++ [.sessionClose], some ("failed to open registration stream: " ++ e)⟩
    | none =>
      let sent := opened ++ [.streamWrite (regMsg clientId w.rangeOrder), .streamClose]
      match w.regWriteErr with
      | some e =>
        ⟨sent ++ [.sessionClose], some ("failed to send registration message: " ++ e)⟩
      | none =>
        ⟨sent ++ [.log "Registered with clientId \x27%s\x27 and mappings: %v"] ++
            List.replicate w.accepted .goHandleProxyStream ++
            [.log "Session closed or network error: %v", .sessionClose],
          none⟩

/-- `runClient`: one attempt, for an accept loop that ends. -/
def runClient (serverAddr clientId serverKey : String) (enableTLS tlsInsecure : Bool)
    (w : Attempt) : Run :=
  let dial := Event.dial enableTLS (enableTLS && tlsInsecure) serverAddr
  match w.dialErr with
  | some e => ⟨[dial], some ("failed to connect to server: " ++ e)⟩
  | none =>
    let g := greeting enableTLS w.greeting
    match g.ret with
    | some e => ⟨[dial] ++ g.events, some e⟩
    | none =>
      let k := keyExchange serverKey w.keyResponse
      match k.ret with
      | some e => ⟨[dial] ++ g.events ++ k.events, some e⟩
      | none =>
        let s := session clientId w
        ⟨[dial] ++ g.events ++ k.events ++ s.events, s.ret⟩

/-! ## The heartbeat goroutine of runClient -/

/-- What one turn of the heartbeat loop gets from the session. -/
structure Beat where
  /-- `session.IsClosed()`. -/
  isClosed : Bool
  /-- `session.OpenStream()`: the stream, or the error, with which the stream
  returned is nil. -/
  opened : Except String Nat
  /-- The error of `stream.Write([]byte("ping"))`. -/
  writeErr : Option String
  /-- The data of the reads that returned a nil error, in order. -/
  reads : List String
  /-- The data of the read that ended the loop. -/
  lastRead : String
  /-- The error of that read: `none` is `io.EOF`. -/
  readErr : Option String
  deriving Repr

/-- What the heartbeat goroutine does, in program order. -/
inductive BeatEvent where
  | log (format : String)
  | openStream
  | write (stream : Nat) (data : String)
  | read (stream : Nat)
  /-- `stream.Close()`: `none` is the nil stream. -/
  | close (stream : Option Nat)
  | sleep (ns : Nat)
  deriving DecidableEq, Repr

/-- How one turn of the heartbeat loop ends. -/
inductive BeatEnd where
  /-- Line 167: the goroutine returns, the session is closed. -/
  | exit
  /-- Line 201: the loop goes on after the sleep. -/
  | again
  /-- `Close` on the nil `*yamux.Stream`: `Stream.Close` takes the lock of its
  receiver first, a nil dereference, and a panic in a goroutine ends the
  process. -/
  | nilDereference
  deriving DecidableEq, Repr

/-- Lines 179-191: `reply`, the data of all reads put together. -/
def reply (b : Beat) : String :=
  b.reads.foldl (fun acc chunk => acc ++ chunk) "" ++ b.lastRead

/-- Lines 173-198: what is done with an open stream. -/
def exchange (stream : Nat) (b : Beat) : List BeatEvent :=
  match b.writeErr with
  | some _ => [.write stream "ping", .log "Heartbeat: failed to write ping: %v"]
  | none =>
    [BeatEvent.write stream "ping"] ++
    List.replicate (b.reads.length + 1) (.read stream) ++
    (match b.readErr with
      | some _ => [.log "Heartbeat: failed to read pong: %v"]
      | none => []) ++
    (if strings.Contains (reply b) "pong" then []
      else [.log "Heartbeat: unexpected reply: %s"])

/-- Lines 164-202: one turn of the heartbeat loop. -/
def heartbeat (b : Beat) : List BeatEvent × BeatEnd :=
  if b.isClosed then ([.log "Heartbeat goroutine exit: session closed"], .exit)
  else
    match b.opened with
    | .error _ =>
      ([.openStream, .log "Heartbeat: failed to open stream: %v", .close none],
        .nilDereference)
    | .ok stream =>
      ([BeatEvent.openStream] ++ exchange stream b ++
          [.close (some stream), .sleep (5 * time.Second)],
        .again)

/-! ## RunClientWithTLS -/

/-- What the supervisor does, in program order. -/
inductive SupEvent where
  /-- The `log.Printf` at the head of the loop. -/
  | logAttempt
  /-- One call of `runClient`, with what it did and returned. -/
  | attempt (run : Run)
  /-- The `log.Printf` of the error. -/
  | logError (err : String)
  /-- `time.Sleep`, nanoseconds. -/
  | sleep (ns : Nat)
  deriving DecidableEq, Repr

/-- Line 69: `retryDelay`. -/
def retryDelay : Nat := 5 * time.Second

/-- Lines 71-76: one turn of the loop of `RunClientWithTLS`. -/
def superviseOnce (serverAddr clientId serverKey : String) (enableTLS tlsInsecure : Bool)
    (w : Attempt) : List SupEvent :=
  let run := runClient serverAddr clientId serverKey enableTLS tlsInsecure w
  match run.err with
  | some e => [.logAttempt, .attempt run, .logError e, .sleep retryDelay]
  | none => [.logAttempt, .attempt run]

/-- The state of `RunClientWithTLS` after some turns of its loop: what it did,
and the value it returned with, if it left the loop. -/
structure Supervisor where
  events : List SupEvent
  returned : Option (Option String)
  deriving DecidableEq, Repr

/-- `RunClientWithTLS`, run for `turns` turns of its `for` loop; `world i` is
what the network does in turn `i`.  The loop has no `break` and no `return`. -/
def RunClientWithTLS (serverAddr clientId serverKey : String) (enableTLS tlsInsecure : Bool)
    (world : Nat → Attempt) : (turns : Nat) → Supervisor
  | 0 => ⟨[], none⟩
  | turns + 1 =>
    let before := RunClientWithTLS serverAddr clientId serverKey enableTLS tlsInsecure world turns
    ⟨before.events ++
        superviseOnce serverAddr clientId serverKey enableTLS tlsInsecure (world turns),
      before.returned⟩

/-! ## The words of the specification, and inputs for the examples -/

/-- The name the dispatcher looks up, in the words of the specification: the
first `/`-separated segment of the path without its leading and trailing `/`. -/
def firstSegment (path : String) : String :=
  ⟨(strings.Trim path "/").data.takeWhile (fun c => c != '/')⟩

/-- The target of a name in the words of the specification: `table[name]` when
`name` is a key, else `table["video"]` when `name` is `ws`, else nothing. -/
def resolvedTarget (table : Mappings) (name : String) : Option String :=
  match table.lookup name with
  | some t => some t
  | none => if name = "ws" then table.lookup "video" else none

/-- The classification in the words of the specification: the `Connection`
header contains `upgrade`. -/
def isWebSocketSpec (lib : Lib) (req : Request) : Bool :=
  (strings.ToLower lib (http.Header.Get req.Header "Upgrade") == "websocket" &&
    strings.Contains (strings.ToLower lib (http.Header.Get req.Header "Connection")) "upgrade") ||
  strings.HasPrefix req.URL.Path "/api/ws" ||
  strings.HasPrefix req.URL.Path "/ws"

/-- The token of one entry in the registration message. -/
def regToken (e : String × String) : String :=
  " " ++ e.1 ++ "=" ++ e.2

/-- Whether an event of the supervisor is a call of `runClient`. -/
def SupEvent.isAttempt : SupEvent → Bool
  | .attempt _ => true
  | _ => false

/-- A library for the examples: `url.Parse` on the two targets they use, a dial
that succeeds, no case pairs above U+007F. -/
def exampleLib : Lib where
  unicodeToLower := id
  urlParse := fun s =>
    if s = "http://127.0.0.1:5244" then some ⟨"http", "127.0.0.1:5244", "", ""⟩
    else if s = "http://127.0.0.1:8080" then some ⟨"http", "127.0.0.1:8080", "", ""⟩
    else none
  dialOk := fun _ => true

/-- `GET <path>?<query>` with the headers `h`, as it comes from the relay. -/
def exampleGet (path query : String) (h : Header) : Request :=
  { Method := "GET", URL := ⟨"", "", path, query⟩, Header := h, Body := "",
    Host := "relay.example", RequestURI := path }

/-- An attempt in which the dial, the session and the registration succeed and
the accept loop ends at once. -/
def exampleAttempt (greeting keyResponse : ReadResult) : Attempt :=
  { dialErr := none, greeting := greeting, keyResponse := keyResponse,
    sessionErr := none, regOpenErr := none, regWriteErr := none,
    rangeOrder := mappings, accepted := 0 }

/-! ## Lemmas on the string functions -/

theorem splitChars_ne_nil (sep : Char) (l : List Char) : strings.splitChars sep l ≠ [] := by
  induction l with
  | nil => simp [strings.splitChars]
  | cons c cs ih =>
    unfold strings.splitChars
    split
    · simp
    · split <;> simp

theorem head?_splitChars (sep : Char) (l : List Char) :
    (strings.splitChars sep l).head? = some (l.takeWhile (fun c => c != sep)) := by
  induction l with
  | nil => simp [strings.splitChars]
  | cons c cs ih =>
    unfold strings.splitChars
    by_cases h : c = sep
    · simp [h]
    · simp only [h, if_false]
      cases hs : strings.splitChars sep cs with
      | nil => exact absurd hs (splitChars_ne_nil sep cs)
      | cons seg segs =>
        rw [hs] at ih
        simp at ih
        have hne : (c != sep) = true := by simpa using h
        simp [List.takeWhile, hne, ih]

theorem head?_Split (s : String) (sep : Char) :
    (strings.Split s sep).head? = some ⟨s.data.takeWhile (fun c => c != sep)⟩ := by
  simp [strings.Split, List.head?_map, head?_splitChars]

theorem resolveMapping_eq (table : Mappings) (path : String) :
    resolveMapping table path =
      (match table.lookup (firstSegment path) with
        | some t => Resolution.target t (strings.Split (strings.Trim path "/") '/')
        | none =>
          if firstSegment path = "ws" then
            match table.lookup "video" with
            | some t => Resolution.target t (strings.Split (strings.Trim path "/") '/')
            | none => Resolution.notFound (createErrorResponse 404 "Mapping Not Found")
          else Resolution.notFound (createErrorResponse 404 "Mapping Not Found")) := by
  have hh := head?_Split (strings.Trim path "/") '/'
  unfold resolveMapping
  cases hp : strings.Split (strings.Trim path "/") '/' with
  | nil => rw [hp] at hh; simp at hh
  | cons name rest =>
    rw [hp] at hh
    simp only [List.head?_cons, Option.some.injEq] at hh
    have hn : name = firstSegment path := hh
    subst hn
    cases h1 : List.lookup (firstSegment path) table with
    | some t => simp [h1]
    | none =>
      by_cases hw : firstSegment path = "ws"
      · rw [hw] at h1
        cases h2 : List.lookup "video" table <;>
          simp [h1, hw, h2, http.StatusNotFound]
      · simp [h1, hw, http.StatusNotFound]

theorem handleProxyStream_eq (lib : Lib) (table : Mappings) (req : Request) :
    handleProxyStream lib table (some req) =
      (match resolvedTarget table (firstSegment req.URL.Path) with
        | none => ProxyOutcome.respond (createErrorResponse 404 "Mapping Not Found")
        | some t =>
          match lib.urlParse t with
          | none =>
            ProxyOutcome.respond (createErrorResponse 500 "Invalid Target Configuration")
          | some u =>
            if isWebSocket lib req = true then
              ProxyOutcome.webSocket (handleWebSocketProxy lib req u
                (strings.Split (strings.Trim req.URL.Path "/") '/'))
            else
              ProxyOutcome.forward (forwardRequest req u
                (strings.Split (strings.Trim req.URL.Path "/") '/'))) := by
  unfold handleProxyStream resolvedTarget
  simp only [resolveMapping_eq]
  cases h1 : List.lookup (firstSegment req.URL.Path) table with
  | some t =>
    simp only
    cases lib.urlParse t <;> simp [http.StatusInternalServerError]
  | none =>
    by_cases hw : firstSegment req.URL.Path = "ws"
    · simp only [hw, if_true]
      cases h2 : List.lookup "video" table with
      | none => simp
      | some t =>
        simp only
        cases lib.urlParse t <;> simp [http.StatusInternalServerError]
    · simp [hw]

/-- C1. Mapping resolution in `handleProxyStream` is total and deterministic:
with `name` the first `/`-separated segment of the trimmed path (the head of the
segment list, which is never empty), the dispatcher resolves to `table[name]` if
`name` is a key, else to `table["video"]` if `name` is `ws` and `video` is a key,
and goes on with that target (to the 500 response when the target does not parse,
to `handleWebSocketProxy` or to the HTTP forwarder otherwise); else it writes the
404 response `Mapping Not Found` and forwards nothing; a decoded request is never
dropped without a response, the paths `""` and `/` included. -/
theorem mapping_resolution_total (lib : Lib) (table : Mappings) (req : Request) :
    (strings.Split (strings.Trim req.URL.Path "/") '/').head?
      = some (firstSegment req.URL.Path) ∧
    resolveMapping table req.URL.Path =
      (match table.lookup (firstSegment req.URL.Path) with
        | some t => Resolution.target t (strings.Split (strings.Trim req.URL.Path "/") '/')
        | none =>
          if firstSegment req.URL.Path = "ws" then
            match table.lookup "video" with
            | some t =>
              Resolution.target t (strings.Split (strings.Trim req.URL.Path "/") '/')
            | none => Resolution.notFound (createErrorResponse 404 "Mapping Not Found")
          else Resolution.notFound (createErrorResponse 404 "Mapping Not Found")) ∧
    handleProxyStream lib table (some req) =
      (match resolvedTarget table (firstSegment req.URL.Path) with
        | none => ProxyOutcome.respond (createErrorResponse 404 "Mapping Not Found")
        | some t =>
          match lib.urlParse t with
          | none =>
            ProxyOutcome.respond (createErrorResponse 500 "Invalid Target Configuration")
          | some u =>
            if isWebSocket lib req = true then
              ProxyOutcome.webSocket (handleWebSocketProxy lib req u
                (strings.Split (strings.Trim req.URL.Path "/") '/'))
            else
              ProxyOutcome.forward (forwardRequest req u
                (strings.Split (strings.Trim req.URL.Path "/") '/'))) ∧
    (∀ t, table.lookup (firstSegment req.URL.Path) = some t →
      resolvedTarget table (firstSegment req.URL.Path) = some t) ∧
    (∀ t, table.lookup "ws" = some t → resolvedTarget table "ws" = some t) ∧
    (table.lookup "ws" = none → resolvedTarget table "ws" = table.lookup "video") ∧
    (∀ resp, resolveMapping table req.URL.Path = Resolution.notFound resp →
      handleProxyStream lib table (some req) = ProxyOutcome.respond resp) ∧
    handleProxyStream lib table (some req) ≠ ProxyOutcome.invalidPath ∧
    handleProxyStream lib table (some req) ≠ ProxyOutcome.abandoned ∧
    firstSegment "" = "" ∧ firstSegment "/" = "" := by
  refine ⟨head?_Split _ _, resolveMapping_eq table req.URL.Path,
    handleProxyStream_eq lib table req, ?_, ?_, ?_, ?_, ?_, ?_, by decide, by decide⟩
  · intro t h
    simp [resolvedTarget, h]
  · intro t h
    simp [resolvedTarget, h]
  · intro h
    simp [resolvedTarget, h]
  · intro resp h
    simp [handleProxyStream, h]
  · have h := resolveMapping_eq table req.URL.Path
    unfold handleProxyStream
    simp only
    generalize resolveMapping table req.URL.Path = r at h
    cases r with
    | invalidPath =>
      exfalso
      revert h
      cases List.lookup (firstSegment req.URL.Path) table <;> simp
      split <;> try simp
      cases List.lookup "video" table <;> simp
    | notFound resp => simp
    | target t parts =>
      simp only
      cases lib.urlParse t <;> simp
      split <;> simp
  · unfold handleProxyStream
    simp only
    cases resolveMapping table req.URL.Path with
    | invalidPath => simp
    | notFound resp => simp
    | target t parts =>
      simp only
      cases lib.urlParse t <;> simp
      split <;> simp

theorem wsURL_Scheme (req : Request) (targetURL : URL) (parts : List String) :
    (wsURL req targetURL parts).Scheme = toWsScheme targetURL.Scheme := by
  unfold wsURL
  simp only
  split
  · split <;> split <;> rfl
  · rfl

/-- C10. The scheme translation of `handleWebSocketProxy` on http, https, ws and
wss: forward maps http to ws and https to wss and keeps ws and wss, and the local
WebSocket URL `wsURL` carries the forward translation of the scheme of the
target; backward maps ws to http and wss to https, and the URL of the handshake
and the upgrade request carry the backward translation of the scheme of `wsURL`;
backward after forward is the identity on http and https, forward after backward
on ws and wss; the scheme of the handshake URL is http or https for each of the
four; any other scheme passes both steps unchanged. -/
theorem scheme_translation_reversible (lib : Lib) (req : Request) (targetURL : URL)
    (parts : List String) :
    (toWsScheme "http" = "ws" ∧ toWsScheme "https" = "wss" ∧
      toWsScheme "ws" = "ws" ∧ toWsScheme "wss" = "wss") ∧
    (toHttpScheme "ws" = "http" ∧ toHttpScheme "wss" = "https") ∧
    (toHttpScheme (toWsScheme "http") = "http" ∧
      toHttpScheme (toWsScheme "https") = "https") ∧
    (toWsScheme (toHttpScheme "ws") = "ws" ∧ toWsScheme (toHttpScheme "wss") = "wss") ∧
    (wsURL req targetURL parts).Scheme = toWsScheme targetURL.Scheme ∧
    ((targetURL.Scheme = "http" → (wsURL req targetURL parts).Scheme = "ws") ∧
      (targetURL.Scheme = "https" → (wsURL req targetURL parts).Scheme = "wss") ∧
      (targetURL.Scheme = "ws" → (wsURL req targetURL parts).Scheme = "ws") ∧
      (targetURL.Scheme = "wss" → (wsURL req targetURL parts).Scheme = "wss")) ∧
    (httpURL req targetURL parts).Scheme =
      toHttpScheme (wsURL req targetURL parts).Scheme ∧
    (upgradeRequest lib req targetURL parts).URL.Scheme =
      (httpURL req targetURL parts).Scheme ∧
    (httpURL req targetURL parts).Scheme = toHttpScheme (toWsScheme targetURL.Scheme) ∧
    (targetURL.Scheme ∈ ["http", "https", "ws", "wss"] →
      (httpURL req targetURL parts).Scheme = "http" ∨
      (httpURL req targetURL parts).Scheme = "https") ∧
    (∀ s : String, s ∉ ["http", "https", "ws", "wss"] →
      toWsScheme s = s ∧ toHttpScheme s = s ∧ toHttpScheme (toWsScheme s) = s) := by
  have hw := wsURL_Scheme req targetURL parts
  have hh : (httpURL req targetURL parts).Scheme =
      toHttpScheme (wsURL req targetURL parts).Scheme := rfl
  have hs : (httpURL req targetURL parts).Scheme =
      toHttpScheme (toWsScheme targetURL.Scheme) := by rw [hh, hw]
  refine ⟨by decide, by decide, by decide, by decide, hw, ⟨?_, ?_, ?_, ?_⟩, hh, rfl, hs,
    ?_, ?_⟩
  · intro h
    rw [hw, h]
    decide
  · intro h
    rw [hw, h]
    decide
  · intro h
    rw [hw, h]
    decide
  · intro h
    rw [hw, h]
    decide
  · intro h
    rw [hs]
    simp only [List.mem_cons, List.mem_singleton, List.not_mem_nil, or_false] at h
    rcases h with h | h | h | h <;> rw [h] <;> decide
  · intro s h
    simp only [List.mem_cons, List.mem_singleton, List.not_mem_nil, or_false, not_or] at h
    obtain ⟨h1, h2, h3, h4⟩ := h
    simp [toWsScheme, toHttpScheme, h1, h2, h3, h4]

theorem splitChars_of_not_mem (sep : Char) (a : List Char) (h : sep ∉ a) :
    strings.splitChars sep a = [a] := by
  induction a with
  | nil => simp [strings.splitChars]
  | cons c cs ih =>
    simp only [List.mem_cons, not_or] at h
    have hc : ¬ c = sep := fun e => h.1 e.symm
    simp [strings.splitChars, hc, ih h.2]

theorem splitChars_append (sep : Char) (a b : List Char) (h : sep ∉ a) :
    strings.splitChars sep (a ++ sep :: b) = a :: strings.splitChars sep b := by
  induction a with
  | nil => simp [strings.splitChars]
  | cons c cs ih =>
    simp only [List.mem_cons, not_or] at h
    have hc : ¬ c = sep := fun e => h.1 e.symm
    simp [strings.splitChars, hc, ih h.2]

theorem joinChars_splitChars (sep : Char) (l : List Char) :
    strings.joinChars [sep] (strings.splitChars sep l) = l := by
  induction l with
  | nil => simp [strings.splitChars, strings.joinChars]
  | cons c cs ih =>
    unfold strings.splitChars
    by_cases h : c = sep
    · simp only [h, if_true]
      cases hs : strings.splitChars sep cs with
      | nil => exact absurd hs (splitChars_ne_nil sep cs)
      | cons seg segs =>
        rw [hs] at ih
        simp [strings.joinChars, ih]
    · simp only [h, if_false]
      cases hs : strings.splitChars sep cs with
      | nil => exact absurd hs (splitChars_ne_nil sep cs)
      | cons seg segs =>
        rw [hs] at ih
        cases segs with
        | nil => simpa [strings.joinChars] using ih
        | cons s2 ss =>
          simp only [strings.joinChars] at ih ⊢
          simp [← ih]

theorem trim_mapped_path (name rest : List Char) (hn : name ≠ []) (hs : '/' ∉ name)
    (hr : rest.getLast? ≠ some '/') :
    (('/' :: (name ++ '/' :: rest)).dropWhile (fun c => ['/'].contains c)).rdropWhile
        (fun c => ['/'].contains c)
      = if rest = [] then name else name ++ '/' :: rest := by
  obtain ⟨n, ns, rfl⟩ := List.exists_cons_of_ne_nil hn
  have hn1 : ¬ n = '/' := fun e => hs (by simp [e])
  have hd : ('/' :: (n :: ns ++ '/' :: rest)).dropWhile (fun c => ['/'].contains c)
      = n :: ns ++ '/' :: rest := by
    simp [List.dropWhile, hn1]
  rw [hd]
  by_cases hrest : rest = []
  · subst hrest
    simp only [if_true]
    have : n :: ns ++ ['/'] = (n :: ns) ++ ['/'] := rfl
    rw [this, List.rdropWhile_concat_pos _ _ _ (by simp)]
    rw [List.rdropWhile_eq_self_iff]
    intro _ hp
    have hmem : (n :: ns).getLast (by simp) ∈ n :: ns := List.getLast_mem _
    simp only [List.contains_cons, List.contains_nil, Bool.or_false, beq_iff_eq] at hp
    exact hs (hp ▸ hmem)
  · simp only [hrest, if_false]
    rw [List.rdropWhile_eq_self_iff]
    intro _ hp
    simp only [List.contains_cons, List.contains_nil, Bool.or_false, beq_iff_eq] at hp
    apply hr
    have h1 : (n :: ns ++ '/' :: rest).getLast (by simp) = rest.getLast hrest := by
      rw [List.getLast_append_of_ne_nil] 
      · simp [List.getLast_cons hrest]
      · simp
    rw [h1] at hp
    rw [List.getLast?_eq_getLast _ hrest, hp]

theorem Split_Trim_mapped_path (name rest : String) (hname : name ≠ "")
    (hslash : '/' ∉ name.data) (hrest : rest.data.getLast? ≠ some '/') :
    ∃ parts, strings.Split (strings.Trim ("/" ++ name ++ "/" ++ rest) "/") '/' = name :: parts ∧
      strings.Join parts "/" = rest := by
  have hn : name.data ≠ [] := by
    intro h
    apply hname
    cases name
    simp_all
  have hd : ("/" ++ name ++ "/" ++ rest).data = '/' :: (name.data ++ '/' :: rest.data) := by
    simp [String.data_append]
  have ht := trim_mapped_path name.data rest.data hn hslash hrest
  by_cases hr : rest.data = []
  · refine ⟨[], ?_, ?_⟩
    · simp only [strings.Split, strings.Trim, hd]
      rw [ht, if_pos hr, splitChars_of_not_mem _ _ hslash]
      rfl
    · cases rest
      simp_all [strings.Join, strings.joinChars]
  · refine ⟨strings.Split rest '/', ?_, ?_⟩
    · simp only [strings.Split, strings.Trim, hd]
      rw [ht, if_neg hr, splitChars_append _ _ _ hslash]
      rfl
    · simp only [strings.Join, strings.Split, List.map_map]
      have hm : (List.map (String.data ∘ String.mk) (strings.splitChars '/' rest.data))
          = strings.splitChars '/' rest.data := by
        simp [Function.comp_def]
      rw [hm, joinChars_splitChars]

/-- C3, as the code has it. A request that `handleProxyStream` does not take for
a WebSocket request and whose path is `/<name>/<rest>`, for a mapped name that is
not empty and holds no `/` and a rest that does not end in `/`, is issued with
the scheme and host of the target, the path `/<rest>`, an empty `RequestURI`, and
its query string, method, headers, body and `Host` as they came. -/
theorem forward_rewrite (lib : Lib) (table : Mappings) (req : Request)
    (name rest target : String) (u : URL)
    (hname : name ≠ "") (hslash : '/' ∉ name.data)
    (hrest : rest.data.getLast? ≠ some '/')
    (hpath : req.URL.Path = "/" ++ name ++ "/" ++ rest)
    (hmap : table.lookup name = some target)
    (hparse : lib.urlParse target = some u)
    (hws : isWebSocket lib req = false) :
    handleProxyStream lib table (some req) =
      ProxyOutcome.forward
        { Method := req.Method,
          URL := { Scheme := u.Scheme, Host := u.Host, Path := "/" ++ rest,
                   RawQuery := req.URL.RawQuery },
          Header := req.Header, Body := req.Body, Host := req.Host, RequestURI := "" } := by
  obtain ⟨parts, hsplit, hjoin⟩ := Split_Trim_mapped_path name rest hname hslash hrest
  have hres : resolveMapping table req.URL.Path = Resolution.target target (name :: parts) := by
    unfold resolveMapping
    rw [hpath, hsplit]
    simp [hmap]
  unfold handleProxyStream
  simp only [hres, hparse, hws]
  simp [forwardRequest, hjoin]

/-- C3, witness. `GET /alist/api/v1/sysinfo` is issued as
`GET http://127.0.0.1:5244/api/v1/sysinfo`, and `/alist/a/b?x=1` with the path
`/a/b` and the query string `x=1`. -/
theorem forward_rewrite_witness :
    handleProxyStream exampleLib mappings (some (exampleGet "/alist/api/v1/sysinfo" "" [])) =
        ProxyOutcome.forward
          { Method := "GET",
            URL := ⟨"http", "127.0.0.1:5244", "/api/v1/sysinfo", ""⟩,
            Header := [], Body := "", Host := "relay.example", RequestURI := "" } ∧
    handleProxyStream exampleLib mappings (some (exampleGet "/alist/a/b" "x=1" [])) =
        ProxyOutcome.forward
          { Method := "GET",
            URL := ⟨"http", "127.0.0.1:5244", "/a/b", "x=1"⟩,
            Header := [], Body := "", Host := "relay.example", RequestURI := "" } :=
  ⟨forward_rewrite exampleLib mappings (exampleGet "/alist/api/v1/sysinfo" "" [])
      "alist" "api/v1/sysinfo" "http://127.0.0.1:5244" ⟨"http", "127.0.0.1:5244", "", ""⟩
      (by decide) (by decide) (by decide) (by decide) (by decide) (by decide) (by decide),
   forward_rewrite exampleLib mappings (exampleGet "/alist/a/b" "x=1" [])
      "alist" "a/b" "http://127.0.0.1:5244" ⟨"http", "127.0.0.1:5244", "", ""⟩
      (by decide) (by decide) (by decide) (by decide) (by decide) (by decide) (by decide)⟩

/-- C3, counterexample. The path `/alist/a/b/` is `/<name>/<rest>` with the
rest `a/b/`; the request is issued with the path `/a/b`, not `/a/b/`. -/
theorem forward_drops_trailing_slash :
    (exampleGet "/alist/a/b/" "x=1" []).URL.Path = "/" ++ "alist" ++ "/" ++ "a/b/" ∧
    handleProxyStream exampleLib mappings (some (exampleGet "/alist/a/b/" "x=1" [])) =
      ProxyOutcome.forward
        { Method := "GET",
          URL := ⟨"http", "127.0.0.1:5244", "/a/b", "x=1"⟩,
          Header := [], Body := "", Host := "relay.example", RequestURI := "" } ∧
    "/a/b" ≠ "/" ++ "a/b/" := by
  decide

/-- C2, at the failing input. `Upgrade: websocket` with `Connection: keep-alive,
Upgrade` on `/alist/chat`: the `Connection` header contains `upgrade`, and the
code, which compares it with `upgrade`, does not take the request for a WebSocket
request and hands it to the HTTP forwarder. -/
theorem connection_list_not_websocket :
    isWebSocketSpec exampleLib (exampleGet "/alist/chat" ""
      [("Upgrade", ["websocket"]), ("Connection", ["keep-alive, Upgrade"])]) = true ∧
    isWebSocket exampleLib (exampleGet "/alist/chat" ""
      [("Upgrade", ["websocket"]), ("Connection", ["keep-alive, Upgrade"])]) = false ∧
    handleProxyStream exampleLib mappings (some (exampleGet "/alist/chat" ""
      [("Upgrade", ["websocket"]), ("Connection", ["keep-alive, Upgrade"])])) =
      ProxyOutcome.forward
        { Method := "GET",
          URL := ⟨"http", "127.0.0.1:5244", "/chat", ""⟩,
          Header := [("Upgrade", ["websocket"]), ("Connection", ["keep-alive, Upgrade"])],
          Body := "", Host := "relay.example", RequestURI := "" } := by
  decide

/-- C6, at the failing inputs. An upgrade request for `/alist?token=x`, and a
request for `/ws?token=x` served by the `video` fallback, both routed by
`handleProxyStream` to `handleWebSocketProxy`: no segment follows the mapping
name, the block that keeps the query string is not entered, and the request
written to the local service has the empty query string of the target, not
`token=x`.  With a second segment, `/alist/ws/chat?token=x`, the host is
`127.0.0.1:5244`, the path `/ws/chat` and the query string is kept. -/
theorem websocket_query_lost_without_rest :
    handleProxyStream exampleLib mappings (some (exampleGet "/alist" "token=x"
        [("Upgrade", ["websocket"]), ("Connection", ["Upgrade"])])) =
      ProxyOutcome.webSocket (WsOutcome.upgrade "127.0.0.1:5244"
        { Method := "GET",
          URL := ⟨"http", "127.0.0.1:5244", "", ""⟩,
          Header := [("Sec-Websocket-Version", ["13"]),
            ("Sec-Websocket-Key", ["ABCDEFGHIJKLMNOP"]),
            ("Upgrade", ["websocket"]), ("Connection", ["Upgrade"])],
          Body := "", Host := "relay.example", RequestURI := "" }) ∧
    handleProxyStream exampleLib [("video", "http://127.0.0.1:8080")]
        (some (exampleGet "/ws" "token=x" [])) =
      ProxyOutcome.webSocket (WsOutcome.upgrade "127.0.0.1:8080"
        { Method := "GET",
          URL := ⟨"http", "127.0.0.1:8080", "", ""⟩,
          Header := [("Sec-Websocket-Version", ["13"]),
            ("Sec-Websocket-Key", ["ABCDEFGHIJKLMNOP"]),
            ("Connection", ["Upgrade"]), ("Upgrade", ["websocket"])],
          Body := "", Host := "relay.example", RequestURI := "" }) ∧
    handleProxyStream exampleLib mappings (some (exampleGet "/alist/ws/chat" "token=x"
        [("Upgrade", ["websocket"]), ("Connection", ["Upgrade"])])) =
      ProxyOutcome.webSocket (WsOutcome.upgrade "127.0.0.1:5244"
        { Method := "GET",
          URL := ⟨"http", "127.0.0.1:5244", "/ws/chat", "token=x"⟩,
          Header := [("Sec-Websocket-Version", ["13"]),
            ("Sec-Websocket-Key", ["ABCDEFGHIJKLMNOP"]),
            ("Upgrade", ["websocket"]), ("Connection", ["Upgrade"])],
          Body := "", Host := "relay.example", RequestURI := "" }) := by
  decide

/-- C4, counterexample. With TLS, a first read that times out with no data is
not an abort: the greeting step returns no error and `runClient` writes the
server key. -/
theorem tls_no_greeting_proceeds :
    greeting true ⟨"", some "i/o timeout"⟩ =
      ⟨[Event.setReadDeadline 2000000000, Event.readString, Event.clearReadDeadline], none⟩ ∧
    Event.connWrite "key\n" ∈
      (runClient "relay:7000" "c1" "key" true false
        (exampleAttempt ⟨"", some "i/o timeout"⟩ ⟨"SUCCESS: ok\n", none⟩)).events ∧
    Event.connClose ∉
      (runClient "relay:7000" "c1" "key" true false
        (exampleAttempt ⟨"", some "i/o timeout"⟩ ⟨"SUCCESS: ok\n", none⟩)).events ∧
    (runClient "relay:7000" "c1" "key" true false
        (exampleAttempt ⟨"", some "i/o timeout"⟩ ⟨"SUCCESS: ok\n", none⟩)).err = none := by
  decide

theorem greeting_facts (enableTLS : Bool) (r : ReadResult) :
    ((greeting enableTLS r).ret.isSome =
      (strings.HasPrefix r.resp "ERROR:" || (!enableTLS && r.err.isSome))) ∧
    ((greeting enableTLS r).ret.isSome = true →
      (greeting enableTLS r).events.getLast? = some Event.connClose) ∧
    ∀ d, Event.connWrite d ∉ (greeting enableTLS r).events := by
  unfold greeting
  cases enableTLS <;> cases r.err <;> cases strings.HasPrefix r.resp "ERROR:" <;>
    cases strings.HasPrefix r.resp "SUCCESS:" <;> simp

theorem keyExchange_writes_key (serverKey : String) (r : ReadResult) :
    Event.connWrite (serverKey ++ "\n") ∈ (keyExchange serverKey r).events := by
  unfold keyExchange
  cases r.err <;> cases strings.HasPrefix r.resp "ERROR:" <;>
    cases strings.HasPrefix r.resp "SUCCESS:" <;> simp

/-- C4, as the code has it. After a dial that succeeded: without TLS the attempt
aborts when the first read failed or its data starts with `ERROR:`; with TLS the
error of the read is dropped and the attempt aborts only when the data read
starts with `ERROR:`.  An abort returns an error, closes the connection as its
last action and writes no key; otherwise the key is written. -/
theorem greeting_step (serverAddr clientId serverKey : String) (enableTLS tlsInsecure : Bool)
    (w : Attempt) (hdial : w.dialErr = none) :
    ((greeting enableTLS w.greeting).ret.isSome =
      (strings.HasPrefix w.greeting.resp "ERROR:" || (!enableTLS && w.greeting.err.isSome))) ∧
    ((greeting enableTLS w.greeting).ret.isSome = true →
      (runClient serverAddr clientId serverKey enableTLS tlsInsecure w).err =
        (greeting enableTLS w.greeting).ret ∧
      (runClient serverAddr clientId serverKey enableTLS tlsInsecure w).events.getLast? =
        some Event.connClose ∧
      ∀ d, Event.connWrite d ∉
        (runClient serverAddr clientId serverKey enableTLS tlsInsecure w).events) ∧
    ((greeting enableTLS w.greeting).ret.isSome = false →
      Event.connWrite (serverKey ++ "\n") ∈
        (runClient serverAddr clientId serverKey enableTLS tlsInsecure w).events) := by
  obtain ⟨h1, h2, h3⟩ := greeting_facts enableTLS w.greeting
  refine ⟨h1, ?_, ?_⟩
  · intro h
    have hl := h2 h
    unfold runClient
    simp only [hdial]
    cases hg : (greeting enableTLS w.greeting).ret with
    | none => simp [hg] at h
    | some e =>
      simp only
      refine ⟨trivial, ?_, ?_⟩
      · rw [List.getLast?_append, hl]
        rfl
      · intro d
        simpa using h3 d
  · intro h
    unfold runClient
    simp only [hdial]
    cases hg : (greeting enableTLS w.greeting).ret with
    | some e => simp [hg] at h
    | none =>
      simp only
      have hk := keyExchange_writes_key serverKey w.keyResponse
      cases (keyExchange serverKey w.keyResponse).ret <;> simp [hk]

/-- C4, witness. Without TLS, a first read that ends in EOF aborts the attempt;
after a greeting the key is written. -/
theorem greeting_step_witness :
    (exampleAttempt ⟨"", some "EOF"⟩ ⟨"SUCCESS: ok\n", none⟩).dialErr = none ∧
    (runClient "relay:7000" "c1" "key" false false
      (exampleAttempt ⟨"", some "EOF"⟩ ⟨"SUCCESS: ok\n", none⟩)).err =
      some "server closed connection or sent no response (maybe TLS required?)" ∧
    Event.connWrite "key\n" ∈
      (runClient "relay:7000" "c1" "key" false false
        (exampleAttempt ⟨"SUCCESS: hello\n", none⟩ ⟨"SUCCESS: ok\n", none⟩)).events :=
  ⟨rfl,
   ((greeting_step "relay:7000" "c1" "key" false false
      (exampleAttempt ⟨"", some "EOF"⟩ ⟨"SUCCESS: ok\n", none⟩) rfl).2.1 (by decide)).1,
   (greeting_step "relay:7000" "c1" "key" false false
      (exampleAttempt ⟨"SUCCESS: hello\n", none⟩ ⟨"SUCCESS: ok\n", none⟩) rfl).2.2 (by decide)⟩

theorem keyExchange_facts (serverKey : String) (r : ReadResult) :
    (r.err.isSome = true →
      (keyExchange serverKey r).ret =
        some "server closed connection or sent no response after key") ∧
    (r.err = none → strings.HasPrefix r.resp "ERROR:" = true →
      (keyExchange serverKey r).ret =
        some ("server rejected connection after serverKey: " ++ strings.TrimSpace r.resp)) ∧
    (r.err = none → strings.HasPrefix r.resp "ERROR:" = false →
      (keyExchange serverKey r).ret = none) ∧
    Event.yamuxClient ∉ (keyExchange serverKey r).events := by
  unfold keyExchange
  cases r.err <;> cases strings.HasPrefix r.resp "ERROR:" <;>
    cases strings.HasPrefix r.resp "SUCCESS:" <;> simp

theorem greeting_no_session (enableTLS : Bool) (r : ReadResult) :
    Event.yamuxClient ∉ (greeting enableTLS r).events := by
  unfold greeting
  cases enableTLS <;> cases r.err <;> cases strings.HasPrefix r.resp "ERROR:" <;>
    cases strings.HasPrefix r.resp "SUCCESS:" <;> simp

theorem session_starts (clientId : String) (w : Attempt) :
    Event.yamuxClient ∈ (session clientId w).events := by
  unfold session
  cases w.sessionErr <;> cases w.regOpenErr <;> cases w.regWriteErr <;> simp

theorem key_errors_differ (line : String) :
    "server closed connection or sent no response after key" ≠
      "server rejected connection after serverKey: " ++ line := by
  intro h
  have h2 := congrArg (fun s : String => s.data.take 8) h
  simp [String.data_append, List.take] at h2

/-- C5. After the key is written: a second read that fails returns exactly
`server closed connection or sent no response after key`; a line that starts with
`ERROR:` returns `server rejected connection after serverKey: ` and the trimmed
line; in both cases no session is created, and the two errors differ for every
line.  Any other line that was read lets the attempt go on to `yamux.Client`. -/
theorem key_response_step (serverAddr clientId serverKey : String)
    (enableTLS tlsInsecure : Bool) (w : Attempt) (hdial : w.dialErr = none)
    (hgreet : (greeting enableTLS w.greeting).ret = none) :
    Event.connWrite (serverKey ++ "\n") ∈
      (runClient serverAddr clientId serverKey enableTLS tlsInsecure w).events ∧
    (w.keyResponse.err.isSome = true →
      (runClient serverAddr clientId serverKey enableTLS tlsInsecure w).err =
        some "server closed connection or sent no response after key" ∧
      Event.yamuxClient ∉
        (runClient serverAddr clientId serverKey enableTLS tlsInsecure w).events) ∧
    (w.keyResponse.err = none → strings.HasPrefix w.keyResponse.resp "ERROR:" = true →
      (runClient serverAddr clientId serverKey enableTLS tlsInsecure w).err =
        some ("server rejected connection after serverKey: " ++
          strings.TrimSpace w.keyResponse.resp) ∧
      Event.yamuxClient ∉
        (runClient serverAddr clientId serverKey enableTLS tlsInsecure w).events) ∧
    (w.keyResponse.err = none → strings.HasPrefix w.keyResponse.resp "ERROR:" = false →
      Event.yamuxClient ∈
        (runClient serverAddr clientId serverKey enableTLS tlsInsecure w).events) ∧
    (∀ line : String,
      "server closed connection or sent no response after key" ≠
        "server rejected connection after serverKey: " ++ strings.TrimSpace line) := by
  obtain ⟨k1, k2, k3, k4⟩ := keyExchange_facts serverKey w.keyResponse
  have g4 := greeting_no_session enableTLS w.greeting
  have hk := keyExchange_writes_key serverKey w.keyResponse
  have hrun : ∀ e, (keyExchange serverKey w.keyResponse).ret = some e →
      runClient serverAddr clientId serverKey enableTLS tlsInsecure w =
        ⟨[Event.dial enableTLS (enableTLS && tlsInsecure) serverAddr] ++
          (greeting enableTLS w.greeting).events ++
          (keyExchange serverKey w.keyResponse).events, some e⟩ := by
    intro e he
    unfold runClient
    simp only [hdial, hgreet, he]
  refine ⟨?_, ?_, ?_, ?_, fun line => key_errors_differ _⟩
  · unfold runClient
    simp only [hdial, hgreet]
    cases (keyExchange serverKey w.keyResponse).ret <;> simp [hk]
  · intro h
    rw [hrun _ (k1 h)]
    simp [g4, k4]
  · intro h1 h2
    rw [hrun _ (k2 h1 h2)]
    simp [g4, k4]
  · intro h1 h2
    unfold runClient
    simp only [hdial, hgreet, k3 h1 h2]
    simp [session_starts]

/-- C5, witness. The line `ERROR: bad key` after the key. -/
theorem key_response_step_witness :
    (exampleAttempt ⟨"SUCCESS: hello\n", none⟩ ⟨"ERROR: bad key\n", none⟩).dialErr = none ∧
    (greeting false (exampleAttempt ⟨"SUCCESS: hello\n", none⟩
      ⟨"ERROR: bad key\n", none⟩).greeting).ret = none ∧
    (runClient "relay:7000" "c1" "key" false false
      (exampleAttempt ⟨"SUCCESS: hello\n", none⟩ ⟨"ERROR: bad key\n", none⟩)).err =
      some "server rejected connection after serverKey: ERROR: bad key" ∧
    Event.yamuxClient ∉
      (runClient "relay:7000" "c1" "key" false false
        (exampleAttempt ⟨"SUCCESS: hello\n", none⟩ ⟨"ERROR: bad key\n", none⟩)).events :=
  ⟨rfl, by decide,
   (key_response_step "relay:7000" "c1" "key" false false
      (exampleAttempt ⟨"SUCCESS: hello\n", none⟩ ⟨"ERROR: bad key\n", none⟩)
      rfl (by decide)).2.2.1 rfl (by decide)⟩

/-- C7, counterexample. An attempt that registers and whose accept loop ends
returns nil, and the supervisor starts the next attempt with no sleep between
the two. -/
theorem no_backoff_after_nil_return :
    (runClient "relay:7000" "c1" "key" false false
      (exampleAttempt ⟨"SUCCESS: hello\n", none⟩ ⟨"SUCCESS: ok\n", none⟩)).err = none ∧
    (RunClientWithTLS "relay:7000" "c1" "key" false false
      (fun _ => exampleAttempt ⟨"SUCCESS: hello\n", none⟩ ⟨"SUCCESS: ok\n", none⟩) 2).events =
      [SupEvent.logAttempt,
       SupEvent.attempt (runClient "relay:7000" "c1" "key" false false
        (exampleAttempt ⟨"SUCCESS: hello\n", none⟩ ⟨"SUCCESS: ok\n", none⟩)),
       SupEvent.logAttempt,
       SupEvent.attempt (runClient "relay:7000" "c1" "key" false false
        (exampleAttempt ⟨"SUCCESS: hello\n", none⟩ ⟨"SUCCESS: ok\n", none⟩))] := by
  decide

theorem superviseOnce_attempts (serverAddr clientId serverKey : String)
    (enableTLS tlsInsecure : Bool) (w : Attempt) :
    ((superviseOnce serverAddr clientId serverKey enableTLS tlsInsecure w).filter
      SupEvent.isAttempt).length = 1 := by
  unfold superviseOnce
  simp only
  split <;> simp [SupEvent.isAttempt]

/-- C7, as the code has it. `RunClientWithTLS` never returns: after any number
of turns it has made that many attempts and is still in its loop.  A turn is the
log line and the attempt, followed, when `runClient` returned an error, by the
log of the error and a sleep of 5 seconds; when `runClient` returned nil the next
turn starts at once. -/
theorem supervisor_backoff (serverAddr clientId serverKey : String)
    (enableTLS tlsInsecure : Bool) (world : Nat → Attempt) (turns : Nat) :
    (RunClientWithTLS serverAddr clientId serverKey enableTLS tlsInsecure world
      turns).returned = none ∧
    ((RunClientWithTLS serverAddr clientId serverKey enableTLS tlsInsecure world
      turns).events.filter SupEvent.isAttempt).length = turns ∧
    (RunClientWithTLS serverAddr clientId serverKey enableTLS tlsInsecure world
      (turns + 1)).events =
      (RunClientWithTLS serverAddr clientId serverKey enableTLS tlsInsecure world
        turns).events ++
      (match (runClient serverAddr clientId serverKey enableTLS tlsInsecure
          (world turns)).err with
        | some e =>
          [SupEvent.logAttempt,
           SupEvent.attempt (runClient serverAddr clientId serverKey enableTLS tlsInsecure
            (world turns)),
           SupEvent.logError e, SupEvent.sleep 5000000000]
        | none =>
          [SupEvent.logAttempt,
           SupEvent.attempt (runClient serverAddr clientId serverKey enableTLS tlsInsecure
            (world turns))]) := by
  refine ⟨?_, ?_, ?_⟩
  · induction turns with
    | zero => rfl
    | succ n ih => simpa [RunClientWithTLS] using ih
  · induction turns with
    | zero => rfl
    | succ n ih =>
      simp only [RunClientWithTLS, List.filter_append, List.length_append, ih,
        superviseOnce_attempts]
  · simp only [RunClientWithTLS, superviseOnce]
    split <;> simp [retryDelay, time.Second]

/-- C8, at the failing input. The session is open and `session.OpenStream`
fails: the turn logs, then calls `Close` on the nil stream, although it opened
none, and ends in a nil dereference instead of the sleep. -/
theorem heartbeat_closes_unopened_stream :
    heartbeat
      { isClosed := false, opened := Except.error "session shutdown", writeErr := none,
        reads := [], lastRead := "", readErr := none } =
      ([BeatEvent.openStream, BeatEvent.log "Heartbeat: failed to open stream: %v",
        BeatEvent.close none], BeatEnd.nilDereference) := by
  rfl

theorem foldl_append_init (init : String) (l : List String) :
    l.foldl (fun acc s => acc ++ s) init = init ++ l.foldl (fun acc s => acc ++ s) "" := by
  induction l generalizing init with
  | nil => simp
  | cons a l ih =>
    simp only [List.foldl_cons]
    rw [ih (init ++ a), ih ("" ++ a)]
    simp [String.append_assoc]

theorem regMsg_eq (clientId : String) (order : List (String × String)) :
    regMsg clientId order = "register " ++ clientId ++ String.join (order.map regToken) := by
  unfold regMsg String.join
  generalize "register " ++ clientId = init
  induction order generalizing init with
  | nil => simp
  | cons e es ih =>
    simp only [List.foldl_cons, List.map_cons]
    rw [ih, foldl_append_init ("" ++ regToken e)]
    simp [regToken, String.append_assoc]

/-- C9, counterexample. A table of two entries, walked by `range` in one order
in one session and in the other order in the next: the two payloads differ. -/
theorem registration_payload_varies :
    [("b", "http://127.0.0.1:2"), ("a", "http://127.0.0.1:1")].Perm
      [("a", "http://127.0.0.1:1"), ("b", "http://127.0.0.1:2")] ∧
    regMsg "c1" [("a", "http://127.0.0.1:1"), ("b", "http://127.0.0.1:2")] =
      "register c1 a=http://127.0.0.1:1 b=http://127.0.0.1:2" ∧
    regMsg "c1" [("b", "http://127.0.0.1:2"), ("a", "http://127.0.0.1:1")] =
      "register c1 b=http://127.0.0.1:2 a=http://127.0.0.1:1" ∧
    regMsg "c1" [("a", "http://127.0.0.1:1"), ("b", "http://127.0.0.1:2")] ≠
      regMsg "c1" [("b", "http://127.0.0.1:2"), ("a", "http://127.0.0.1:1")] := by
  refine ⟨List.Perm.swap _ _ _, by decide, by decide, by decide⟩

/-- C9, as the code has it. The payload of the registration is `register `, the
client identifier, and one token ` <name>=<url>` for each entry of the table,
each entry once and nothing else, in the order in which `range` walks the table
in that session; the write of `runClient` sends exactly this.  Two sessions with
the same table and identifier send the same tokens, in orders that may differ,
and the same payload when the table has at most one entry; with the built-in
table the payload is `register <id> alist=http://127.0.0.1:5244`. -/
theorem registration_payload (clientId : String) (table order order2 : Mappings)
    (w : Attempt) (h : order.Perm table) (h2 : order2.Perm table)
    (hw : w.rangeOrder = order) (hs : w.sessionErr = none) (ho : w.regOpenErr = none) :
    Event.streamWrite (regMsg clientId order) ∈ (session clientId w).events ∧
    regMsg clientId order = "register " ++ clientId ++ String.join (order.map regToken) ∧
    (order.map regToken).Perm (table.map regToken) ∧
    (order.map regToken).Perm (order2.map regToken) ∧
    (table.length ≤ 1 → regMsg clientId order = regMsg clientId order2) ∧
    (table = mappings →
      regMsg clientId order = "register " ++ clientId ++ " alist=http://127.0.0.1:5244") := by
  have hone : ∀ o : Mappings, o.Perm table → table.length ≤ 1 → o = table := by
    intro o hp hl
    have hlen := hp.length_eq
    match table, o, hp, hl, hlen with
    | [], o, hp, _, _ => exact List.Perm.eq_nil hp
    | [a], o, hp, _, _ => exact List.perm_singleton.mp hp
  refine ⟨?_, regMsg_eq clientId order, h.map _, (h.trans h2.symm).map _, ?_, ?_⟩
  · unfold session
    simp only [hs, ho, hw]
    cases w.regWriteErr <;> simp
  · intro hl
    rw [hone order h hl, hone order2 h2 hl]
  · intro ht
    subst ht
    rw [hone order h (by decide)]
    simp [regMsg, mappings, String.append_assoc]

/-- C9, witness. The built-in table and the client identifier `C`. -/
theorem registration_payload_witness :
    regMsg "C" mappings = "register C alist=http://127.0.0.1:5244" ∧
    Event.streamWrite "register C alist=http://127.0.0.1:5244" ∈
      (session "C" (exampleAttempt ⟨"SUCCESS: hello\n", none⟩ ⟨"SUCCESS: ok\n", none⟩)).events :=
  have h := registration_payload "C" mappings mappings mappings
    (exampleAttempt ⟨"SUCCESS: hello\n", none⟩ ⟨"SUCCESS: ok\n", none⟩)
    (List.Perm.refl _) (List.Perm.refl _) rfl rfl rfl
  ⟨h.2.2.2.2.2 rfl, h.1⟩

/-- The rewrite when a segment follows the mapping name. For a segment list with
at least one segment after the mapping name, the upgrade request goes to the host of the target, its path is
`/` and the remaining segments joined with `/`, appended to the path of the
target when that is neither empty nor `/`, and its query string is that of the
request when the request has one and that of the target otherwise, so that of
the request whenever the target has none. -/
theorem websocket_rewrite (lib : Lib) (req : Request) (targetURL : URL)
    (parts : List String) (h : 1 < parts.length) :
    (upgradeRequest lib req targetURL parts).URL.Path =
      (if targetURL.Path = "" ∨ targetURL.Path = "/"
        then "/" ++ strings.Join (parts.drop 1) "/"
        else targetURL.Path ++ ("/" ++ strings.Join (parts.drop 1) "/")) ∧
    (upgradeRequest lib req targetURL parts).URL.RawQuery =
      (if req.URL.RawQuery = "" then targetURL.RawQuery else req.URL.RawQuery) ∧
    (targetURL.RawQuery = "" →
      (upgradeRequest lib req targetURL parts).URL.RawQuery = req.URL.RawQuery) ∧
    (upgradeRequest lib req targetURL parts).URL.Host = targetURL.Host ∧
    (lib.dialOk targetURL.Host = true →
      handleWebSocketProxy lib req targetURL parts =
        WsOutcome.upgrade targetURL.Host (upgradeRequest lib req targetURL parts)) := by
  have hlen : parts.length > 1 := h
  have hp : (wsURL req targetURL parts).Path =
      (if targetURL.Path = "" ∨ targetURL.Path = "/"
        then "/" ++ strings.Join (parts.drop 1) "/"
        else targetURL.Path ++ ("/" ++ strings.Join (parts.drop 1) "/")) := by
    unfold wsURL
    simp only [hlen, if_true]
    by_cases h1 : targetURL.Path = "" ∨ targetURL.Path = "/" <;>
      by_cases h2 : req.URL.RawQuery = "" <;> simp [h1, h2]
  have hq : (wsURL req targetURL parts).RawQuery =
      (if req.URL.RawQuery = "" then targetURL.RawQuery else req.URL.RawQuery) := by
    unfold wsURL
    simp only [hlen, if_true]
    by_cases h1 : targetURL.Path = "" ∨ targetURL.Path = "/" <;>
      by_cases h2 : req.URL.RawQuery = "" <;> simp [h1, h2]
  have hh : (httpURL req targetURL parts).Host = targetURL.Host := by
    unfold httpURL wsURL
    simp only [hlen, if_true]
    by_cases h1 : targetURL.Path = "" ∨ targetURL.Path = "/" <;>
      by_cases h2 : req.URL.RawQuery = "" <;> simp [h1, h2]
  refine ⟨hp, hq, ?_, hh, ?_⟩
  · intro ht
    show (wsURL req targetURL parts).RawQuery = _
    rw [hq, ht]
    by_cases h2 : req.URL.RawQuery = "" <;> simp [h2]
  · intro hd
    unfold handleWebSocketProxy
    simp only [hh, hd, if_true]

/-- The rewrite at the mapping of `alist` to `http://127.0.0.1:5244` and the path
`/alist/ws/chat`: host `127.0.0.1:5244`, path `/ws/chat`, the query string kept. -/
theorem websocket_rewrite_witness :
    1 < ["alist", "ws", "chat"].length ∧
    (upgradeRequest exampleLib
      (exampleGet "/alist/ws/chat" "token=x"
        [("Upgrade", ["websocket"]), ("Connection", ["Upgrade"])])
      ⟨"http", "127.0.0.1:5244", "", ""⟩ ["alist", "ws", "chat"]).URL =
      ⟨"http", "127.0.0.1:5244", "/ws/chat", "token=x"⟩ ∧
    handleWebSocketProxy exampleLib
      (exampleGet "/alist/ws/chat" "token=x"
        [("Upgrade", ["websocket"]), ("Connection", ["Upgrade"])])
      ⟨"http", "127.0.0.1:5244", "", ""⟩ ["alist", "ws", "chat"] =
      WsOutcome.upgrade "127.0.0.1:5244"
        (upgradeRequest exampleLib
          (exampleGet "/alist/ws/chat" "token=x"
            [("Upgrade", ["websocket"]), ("Connection", ["Upgrade"])])
          ⟨"http", "127.0.0.1:5244", "", ""⟩ ["alist", "ws", "chat"]) :=
  ⟨by decide, by decide,
   (websocket_rewrite exampleLib
      (exampleGet "/alist/ws/chat" "token=x"
        [("Upgrade", ["websocket"]), ("Connection", ["Upgrade"])])
      ⟨"http", "127.0.0.1:5244", "", ""⟩ ["alist", "ws", "chat"] (by decide)).2.2.2.2 rfl⟩

end ApiAgent
